import Mathlib

/-!
# DreamCapture backend — verification of the core lifecycle and scoring logic

Shallow embedding of the ephemeral-content lifecycle and resonance-matching
engine of the `dreamcapture` backend:

* `app/ai_service.py` — resonance scorer (`calculate_resonance`,
  `_mock_resonance`) and moment tag extraction (`analyze_moment`);
* `app/routers/dreams.py` — dream creation (quota, TTL coercion), reads;
* `app/routers/moments.py` — moment creation (quota, TTL);
* `cleanup_expired.py` — the visibility sweep;
* `app/main.py` — `ConnectionManager.broadcast`.

Time is modelled as seconds since the Unix epoch (`Nat`).  External
capabilities (the OpenAI client for refinement scoring, the moderation API)
are modelled as explicit parameters: a `Bool` for availability / flagging and
an `Option` result for a call that can fail with any exception.
-/

namespace DreamCapture

/-- Embedding of `app/config.py` `Settings` — the fields the core logic reads. -/
structure Settings where
  DREAM_TTL_SECONDS : Nat := 86400
  MOMENT_TTL_SECONDS : Nat := 60
  MAX_DREAMS_PER_DAY : Nat := 10
  MAX_MOMENTS_PER_HOUR : Nat := 20
  ENABLE_AI_FEATURES : Bool := true
deriving Repr, DecidableEq

/-- FastAPI `HTTPException(status_code=…, detail=…)`. -/
structure HTTPException where
  status_code : Nat
  detail : String
deriving Repr, DecidableEq

/-- Python truthiness of an `Optional[str]`: `if caption:` is true exactly
for a present, non-empty string. -/
def pyTruthy : Option String → Bool
  | none => false
  | some s => !(s == "")

/-! ## AI service (`app/ai_service.py`) -/

/-- The dream-analysis dict produced by `analyze_dream` (the fields
`calculate_resonance` reads via `.get`). -/
structure DreamAnalysis where
  themes : List String
  emotions : List String
  symbols : List String
  narrative : String
  tags : List String
deriving Repr, DecidableEq

/-- The `{score, explanation}` dict returned by the resonance scorer.
`score` is an `Int` because the refinement path returns whatever integer the
upstream model produced, unchecked. -/
structure ResonanceResult where
  score : Int
  explanation : String
deriving Repr, DecidableEq

/-- Python `set(dream_tags) & set(moment_tags)`: the distinct dream tags that
also occur among the moment tags (case-sensitive string comparison). -/
def commonTagList (dream_tags moment_tags : List String) : List String :=
  dream_tags.dedup.filter (fun t => moment_tags.contains t)

/-- Embedding of `AIService._mock_resonance` (ai_service.py lines 281-289): fallback
resonance used when the OpenAI client is absent.  Note: `len(common) * 25`,
with no cap. -/
def mock_resonance (dream_analysis : DreamAnalysis) (moment_tags : List String) :
    ResonanceResult :=
  let common := commonTagList dream_analysis.tags moment_tags
  { score := 25 * common.length
    explanation := "Subtle resonance detected" }

/-- The deterministic base tuple of `calculate_resonance` (lines 262-265):
capped score and synthesized explanation. -/
def baseResonance (score : Nat) (common_tags : List String) : ResonanceResult :=
  { score := min score 100
    explanation :=
      if common_tags.isEmpty then "Subtle connection"
      else "Shared elements: " ++ String.intercalate ", " common_tags }

/-- Embedding of `AIService.calculate_resonance` (ai_service.py lines 209-265).

`hasClient` models `self.openai_client` being non-`None`; `refineOutcome`
models the outcome of the GPT refinement call: `some r` is a successful,
parsed `{score, explanation}` response, `none` is any raised exception
(timeout, HTTP error, `json.loads` failure), which the source catches and
falls through past. -/
def calculate_resonance (hasClient : Bool) (dream_analysis : DreamAnalysis)
    (moment_tags : List String) (moment_caption : Option String)
    (refineOutcome : Option ResonanceResult) : ResonanceResult :=
  match hasClient with
  | false => mock_resonance dream_analysis moment_tags
  | true =>
    let dream_tags := dream_analysis.tags
    let common_tags := commonTagList dream_tags moment_tags
    let score := common_tags.length * 20
    if score > 20 && pyTruthy moment_caption then
      match refineOutcome with
      | some result => result
      | none => baseResonance score common_tags
    else
      baseResonance score common_tags

/-- Python `str.lower()`, per character (the captions the claims exercise are
ASCII; lowercasing is applied character-wise on both sides of every
statement, so nothing depends on the exact case table). -/
def pyLower (s : String) : String :=
  String.mk (s.data.map Char.toLower)

/-- Helper for `pySplit`: walk the characters, accumulating the current word
(reversed); whitespace ends a word, runs of whitespace produce nothing. -/
def pySplitChars : List Char → List Char → List String
  | [], acc => if acc.isEmpty then [] else [String.mk acc.reverse]
  | c :: cs, acc =>
    if c.isWhitespace then
      if acc.isEmpty then pySplitChars cs []
      else String.mk acc.reverse :: pySplitChars cs []
    else pySplitChars cs (c :: acc)

/-- Python `str.split()` with no argument: split on whitespace runs, never
producing empty pieces. -/
def pySplit (s : String) : List String :=
  pySplitChars s.data []

set_option linter.unusedVariables false in
/-- Embedding of `AIService.analyze_moment` (ai_service.py lines 192-207).  The source
never consults `self.openai_client` here, so the embedding takes the
capability flag and ignores it, exactly as the code does. -/
def analyze_moment (hasClient : Bool) (caption : Option String)
    (media_type : String) : List String :=
  if !(pyTruthy caption) then [media_type, "moment", "now"]
  else
    let words := pySplit (pyLower (caption.getD ""))
    let tags := (words.filter (fun w => w.length > 3)).take 5
    tags ++ [media_type, "moment"]

/-! ## Data model (`app/models.py`) -/

/-- Embedding of `models.Dream` — the columns the core logic reads or writes. -/
structure Dream where
  id : Nat
  user_id : Nat
  title : Option String
  description : String
  audio_url : Option String
  ai_tags : Option (List String)
  created_at : Nat
  expires_at : Nat
  ttl_days : Nat
  is_public : Bool
  is_visible : Bool
  view_count : Nat
deriving Repr, DecidableEq

/-- Embedding of `models.Moment` — the columns the core logic reads or writes. -/
structure Moment where
  id : Nat
  user_id : Nat
  caption : Option String
  media_type : String
  media_url : String
  ai_tags : Option (List String)
  created_at : Nat
  expires_at : Nat
  is_visible : Bool
  view_count : Nat
deriving Repr, DecidableEq

/-! ## Visibility sweep (`cleanup_expired.py`) -/

/-- The per-row update `cleanup_expired_content` applies to a dream selected
by `expires_at <= now AND is_visible == True`; rows not selected are left
untouched. -/
def sweepDream (now : Nat) (d : Dream) : Dream :=
  if d.expires_at ≤ now ∧ d.is_visible = true then { d with is_visible := false } else d

/-- The per-row update for a moment, same selection predicate. -/
def sweepMoment (now : Nat) (m : Moment) : Moment :=
  if m.expires_at ≤ now ∧ m.is_visible = true then { m with is_visible := false } else m

/-- The dict returned by `cleanup_expired_content`, together with the two
updated tables. -/
structure CleanupResult where
  moments : List Moment
  dreams : List Dream
  hidden_moments : Nat
  hidden_dreams : Nat
deriving Repr, DecidableEq

/-- Embedding of `cleanup_expired_content` (cleanup_expired.py lines 35-78): select the
visible, expired rows of each table, set `is_visible = False` on each, and
report the counts.  No row is deleted. -/
def cleanup_expired_content (now : Nat) (moments : List Moment)
    (dreams : List Dream) : CleanupResult :=
  let expired_moments := moments.filter (fun m => decide (m.expires_at ≤ now) && m.is_visible)
  let expired_dreams := dreams.filter (fun d => decide (d.expires_at ≤ now) && d.is_visible)
  { moments := moments.map (sweepMoment now)
    dreams := dreams.map (sweepDream now)
    hidden_moments := expired_moments.length
    hidden_dreams := expired_dreams.length }

/-! ## Dream router (`app/routers/dreams.py`) -/

/-- Request body `schemas.DreamCreate`. -/
structure DreamCreate where
  description : String
  title : Option String
  audio_url : Option String
  is_public : Bool
  ttl_days : Int
deriving Repr, DecidableEq

/-- The pydantic field constraints on `DreamCreate` (schemas.py lines 37-42):
`description` 10–5000 chars, `title` at most 200 chars, `ttl_days` any
integer in `[1, 30]`. -/
def DreamCreate.validate (r : DreamCreate) : Bool :=
  decide (10 ≤ r.description.length) && decide (r.description.length ≤ 5000) &&
  (match r.title with
   | none => true
   | some t => decide (t.length ≤ 200)) &&
  decide (1 ≤ r.ttl_days) && decide (r.ttl_days ≤ 30)

/-- Embedding of `datetime.now(timezone.utc).replace(hour=0, minute=0, second=0,
microsecond=0)`: the UTC calendar-day start, in epoch seconds. -/
def todayStart (now : Nat) : Nat :=
  now / 86400 * 86400

/-- Embedding of `create_dream` (dreams.py lines 42-115).  `moderationFlagged` and
`violationMessage` model the moderation capability's answer for this
request's text.  Returns the table after the request together with the HTTP
outcome; on an error outcome the table is returned unchanged — nothing was
persisted. -/
def create_dream (s : Settings) (moderationFlagged : Bool)
    (violationMessage : String) (db : List Dream) (current_user_id : Nat)
    (newId : Nat) (now : Nat) (dream_data : DreamCreate) :
    List Dream × Except HTTPException Dream :=
  if moderationFlagged then
    (db, .error ⟨400, violationMessage⟩)
  else
    let today_dreams := db.filter (fun d =>
      d.user_id == current_user_id && decide (todayStart now ≤ d.created_at))
    if s.MAX_DREAMS_PER_DAY ≤ today_dreams.length then
      (db, .error ⟨429, "Maximum " ++ toString s.MAX_DREAMS_PER_DAY ++ " dreams per day"⟩)
    else
      let ttl_days : Nat :=
        if dream_data.ttl_days = 1 ∨ dream_data.ttl_days = 7 ∨ dream_data.ttl_days = 30
        then dream_data.ttl_days.toNat else 1
      let expires_at := now + 86400 * ttl_days
      let new_dream : Dream :=
        { id := newId
          user_id := current_user_id
          title := dream_data.title
          description := dream_data.description
          audio_url := dream_data.audio_url
          ai_tags := none
          created_at := now
          expires_at := expires_at
          ttl_days := ttl_days
          is_public := dream_data.is_public
          is_visible := true
          view_count := 0 }
      (db ++ [new_dream], .ok new_dream)

/-- Embedding of `get_dreams` (dreams.py lines 118-143): public, visible, unexpired
dreams, newest first, with `skip`/`limit` paging. -/
def get_dreams (db : List Dream) (now : Nat) (skip limit : Nat) : List Dream :=
  let rows := db.filter (fun d =>
    d.is_public && d.is_visible && decide (now < d.expires_at))
  let sorted := rows.mergeSort (fun a b => b.created_at ≤ a.created_at)
  (sorted.drop skip).take limit

/-- Embedding of `get_dream` (dreams.py lines 174-200): 404 when the id has no row, 410
when past expiry, 403 when private; otherwise the view counter is bumped and
committed. -/
def get_dream (db : List Dream) (dream_id : Nat) (now : Nat) :
    List Dream × Except HTTPException Dream :=
  match db.find? (fun d => d.id == dream_id) with
  | none => (db, .error ⟨404, "Dream not found"⟩)
  | some dream =>
    if dream.expires_at ≤ now then
      (db, .error ⟨410, "Dream expired"⟩)
    else if !dream.is_public then
      (db, .error ⟨403, "This dream is private"⟩)
    else
      let updated := { dream with view_count := dream.view_count + 1 }
      (db.map (fun d => if d.id == dream_id then updated else d), .ok updated)

/-! ## Moment router (`app/routers/moments.py`) -/

/-- Request body `schemas.MomentCreate`. -/
structure MomentCreate where
  caption : Option String
  media_type : String
  media_url : String
deriving Repr, DecidableEq

/-- Embedding of `create_moment` (moments.py lines 36-109).  Moderation only runs when
the caption is truthy; the hourly quota window is `created_at >= now - 1h`;
`expires_at = now + MOMENT_TTL_SECONDS` with no check against `now`. -/
def create_moment (s : Settings) (moderationFlagged : Bool)
    (violationMessage : String) (db : List Moment) (current_user_id : Nat)
    (newId : Nat) (now : Nat) (moment_data : MomentCreate) :
    List Moment × Except HTTPException Moment :=
  if pyTruthy moment_data.caption && moderationFlagged then
    (db, .error ⟨400, violationMessage⟩)
  else
    let hour_ago := now - 3600
    let recent_moments := db.filter (fun m =>
      m.user_id == current_user_id && decide (hour_ago ≤ m.created_at))
    if s.MAX_MOMENTS_PER_HOUR ≤ recent_moments.length then
      (db, .error ⟨429, "Maximum " ++ toString s.MAX_MOMENTS_PER_HOUR ++ " moments per hour"⟩)
    else
      let expires_at := now + s.MOMENT_TTL_SECONDS
      let new_moment : Moment :=
        { id := newId
          user_id := current_user_id
          caption := moment_data.caption
          media_type := moment_data.media_type
          media_url := moment_data.media_url
          ai_tags := none
          created_at := now
          expires_at := expires_at
          is_visible := true
          view_count := 0 }
      (db ++ [new_moment], .ok new_moment)

/-! ## Fan-out broadcaster (`app/main.py`, `ConnectionManager`) -/

/-- A live WebSocket connection, identified for the model by a number. -/
abbrev Conn := Nat

/-- What one call to `ConnectionManager.broadcast` did: the live set after
the call, the connections whose `send_json` was attempted (in iteration
order, with multiplicity), and those whose send succeeded. -/
structure BroadcastResult where
  active : List Conn
  attempts : List Conn
  delivered : List Conn
deriving Repr, DecidableEq

/-- One iteration of the `broadcast` loop: `try: await connection.send_json
(message) except Exception: self.active_connections.discard(connection)`. -/
def broadcastStep (sendFails : Conn → Bool) (st : BroadcastResult) (c : Conn) :
    BroadcastResult :=
  if sendFails c then
    { st with active := st.active.erase c, attempts := st.attempts ++ [c] }
  else
    { st with attempts := st.attempts ++ [c], delivered := st.delivered ++ [c] }

/-- Embedding of `ConnectionManager.broadcast` (main.py lines 34-40): iterate over a copy
of `active_connections`; try `send_json` once per connection; a raised
exception discards that connection from the live set and the loop moves on.
`sendFails c = true` models `send_json` raising for connection `c`. -/
def broadcast (sendFails : Conn → Bool) (active_connections : List Conn) :
    BroadcastResult :=
  active_connections.foldl (broadcastStep sendFails)
    { active := active_connections, attempts := [], delivered := [] }

/-! ## Helper lemmas -/

theorem commonTagList_toFinset (a b : List String) :
    (commonTagList a b).toFinset = a.toFinset ∩ b.toFinset := by
  ext x
  simp [commonTagList, List.mem_filter, Finset.mem_inter]

theorem commonTagList_nodup (a b : List String) : (commonTagList a b).Nodup :=
  (List.nodup_dedup a).filter _

theorem commonTagList_length (a b : List String) :
    (commonTagList a b).length = (a.toFinset ∩ b.toFinset).card := by
  rw [← commonTagList_toFinset, List.toFinset_card_of_nodup (commonTagList_nodup a b)]

/-- With the client present and a failed (or never consulted) refinement
call, `calculate_resonance` returns the deterministic base tuple. -/
theorem calculate_resonance_none (da : DreamAnalysis) (moment_tags : List String)
    (caption : Option String) :
    calculate_resonance true da moment_tags caption none =
      baseResonance ((commonTagList da.tags moment_tags).length * 20)
        (commonTagList da.tags moment_tags) := by
  unfold calculate_resonance
  split
  · rename_i heq
    exact Bool.noConfusion heq
  · split
    · rename_i heq
      exact Option.noConfusion heq
    · simp only [ite_self]

/-! ## C1 / C2 / C3 / C9 — the resonance scorer and the moment tagger -/

/-- C1: the claim that every path of the scorer stays within `[0,100]` fails
on the fallback path: with the enrichment capability absent and five shared
tags, `_mock_resonance` returns `5 * 25 = 125`, outside the claimed (and
docstring-promised) range. -/
theorem calculate_resonance_fallback_exceeds_range :
    (calculate_resonance false ⟨[], [], [], "", ["a1", "b2", "c3", "d4", "e5"]⟩
        ["a1", "b2", "c3", "d4", "e5"] none none).score = 125 ∧
    ¬((calculate_resonance false ⟨[], [], [], "", ["a1", "b2", "c3", "d4", "e5"]⟩
        ["a1", "b2", "c3", "d4", "e5"] none none).score ≤ 100) := by
  decide

/-- C2: on the deterministic base path (client present, refinement failed or
skipped) the returned score is `min(100, 20·|dreamTags ∩ momentTags|)` with
case-sensitive string-set intersection; five shared tags give exactly 100. -/
theorem calculate_resonance_base_score_formula (da : DreamAnalysis)
    (moment_tags : List String) (caption : Option String) :
    (calculate_resonance true da moment_tags caption none).score =
      ((min 100 (20 * (da.tags.toFinset ∩ moment_tags.toFinset).card) : Nat) : Int) ∧
    ((da.tags.toFinset ∩ moment_tags.toFinset).card = 5 →
      (calculate_resonance true da moment_tags caption none).score = 100) := by
  have hb := calculate_resonance_none da moment_tags caption
  have hlen := commonTagList_length da.tags moment_tags
  constructor
  · rw [hb]
    simp only [baseResonance, hlen]
    push_cast
    omega
  · intro hcard
    rw [hb]
    simp only [baseResonance, hlen, hcard]
    norm_num

/-- C3: the refinement outcome is consulted only when the base score exceeds
20 AND the caption is truthy AND the client is present (otherwise the result
does not depend on it at all); a successful refinement overrides the tuple
entirely, and a failed refinement leaves exactly the deterministic base
tuple — the function is total, so the failure never reaches the caller. -/
theorem calculate_resonance_refinement_gating (da : DreamAnalysis)
    (moment_tags : List String) (caption : Option String) :
    (∀ o₁ o₂ : Option ResonanceResult,
      ¬((commonTagList da.tags moment_tags).length * 20 > 20 ∧
          pyTruthy caption = true) →
      calculate_resonance true da moment_tags caption o₁ =
        calculate_resonance true da moment_tags caption o₂) ∧
    (∀ o₁ o₂ : Option ResonanceResult,
      calculate_resonance false da moment_tags caption o₁ =
        calculate_resonance false da moment_tags caption o₂) ∧
    (∀ r : ResonanceResult,
      (commonTagList da.tags moment_tags).length * 20 > 20 →
      pyTruthy caption = true →
      calculate_resonance true da moment_tags caption (some r) = r) ∧
    calculate_resonance true da moment_tags caption none =
      baseResonance ((commonTagList da.tags moment_tags).length * 20)
        (commonTagList da.tags moment_tags) := by
  refine ⟨?_, ?_, ?_, calculate_resonance_none da moment_tags caption⟩
  · intro o₁ o₂ hgate
    have hgate' : ¬(1 < (commonTagList da.tags moment_tags).length ∧
        pyTruthy caption = true) := by
      intro h
      exact hgate ⟨by omega, h.2⟩
    unfold calculate_resonance
    simp [hgate']
  · intro o₁ o₂
    rfl
  · intro r hgt hp
    have h1 : 1 < (commonTagList da.tags moment_tags).length := by omega
    unfold calculate_resonance
    simp [h1, hp]

/-- C3 witness: with two shared tags (base score 40 > 20) and a non-empty
caption, a successful refinement outcome replaces the tuple entirely. -/
theorem calculate_resonance_refinement_gating_witness :
    calculate_resonance true ⟨[], [], [], "", ["a", "b"]⟩ ["a", "b"]
        (some "hi") (some ⟨77, "x"⟩) = ⟨77, "x"⟩ :=
  (calculate_resonance_refinement_gating ⟨[], [], [], "", ["a", "b"]⟩
      ["a", "b"] (some "hi")).2.2.1 ⟨77, "x"⟩ (by decide) (by decide)

/-- C2 witness: five shared tags yield exactly 100. -/
theorem calculate_resonance_base_score_formula_witness :
    (calculate_resonance true ⟨[], [], [], "", ["a", "b", "c", "d", "e"]⟩
        ["a", "b", "c", "d", "e"] none none).score = 100 :=
  (calculate_resonance_base_score_formula ⟨[], [], [], "", ["a", "b", "c", "d", "e"]⟩
      ["a", "b", "c", "d", "e"] none).2 (by decide)

/-- C9: the fallback moment tagger is deterministic — its output never
depends on the capability flag — and has the described shape: lowercased
whitespace-separated words longer than 3 characters, at most 5 of them, then
the media type and the literal tag `moment`; exactly
`[media_type, "moment", "now"]` when the caption is absent. -/
theorem analyze_moment_deterministic (hc₁ hc₂ : Bool) (caption : Option String)
    (media_type : String) :
    analyze_moment hc₁ caption media_type = analyze_moment hc₂ caption media_type ∧
    analyze_moment hc₁ none media_type = [media_type, "moment", "now"] ∧
    (∀ c : String, c ≠ "" →
      analyze_moment hc₁ (some c) media_type =
        ((pySplit (pyLower c)).filter (fun w => w.length > 3)).take 5 ++
          [media_type, "moment"]) := by
  refine ⟨rfl, rfl, ?_⟩
  intro c hc
  have hne : (c == "") = false := by
    rw [beq_eq_false_iff_ne]
    exact hc
  unfold analyze_moment
  simp [pyTruthy, hne]

/-- C9 witness: a concrete caption, with the output evaluated. -/
theorem analyze_moment_deterministic_witness :
    analyze_moment true (some "Golden sunset over THE bay") "photo" =
      ["golden", "sunset", "over", "photo", "moment"] :=
  ((analyze_moment_deterministic true false (some "Golden sunset over THE bay")
      "photo").2.2 "Golden sunset over THE bay" (by decide)).trans (by decide)

/-! ## C4 — the visibility sweep -/

/-- C4: the sweep rewrites each table row by row (no row deleted or added);
a row changes exactly when it is visible and at-or-past expiry, and the only
change is `is_visible := false`; a hidden row is never made visible again and
re-sweeping is a no-op, so per-item visibility is monotone true→false. -/
theorem cleanup_expired_content_monotone (now : Nat) (moments : List Moment)
    (dreams : List Dream) :
    (cleanup_expired_content now moments dreams).moments =
        moments.map (sweepMoment now) ∧
    (cleanup_expired_content now moments dreams).dreams =
        dreams.map (sweepDream now) ∧
    (cleanup_expired_content now moments dreams).moments.length = moments.length ∧
    (cleanup_expired_content now moments dreams).dreams.length = dreams.length ∧
    (∀ d : Dream,
      (d.is_visible = true ∧ d.expires_at ≤ now →
        sweepDream now d = { d with is_visible := false }) ∧
      (d.is_visible = false ∨ now < d.expires_at → sweepDream now d = d) ∧
      ((sweepDream now d).is_visible = true → d.is_visible = true) ∧
      sweepDream now (sweepDream now d) = sweepDream now d) ∧
    (∀ m : Moment,
      (m.is_visible = true ∧ m.expires_at ≤ now →
        sweepMoment now m = { m with is_visible := false }) ∧
      (m.is_visible = false ∨ now < m.expires_at → sweepMoment now m = m) ∧
      ((sweepMoment now m).is_visible = true → m.is_visible = true) ∧
      sweepMoment now (sweepMoment now m) = sweepMoment now m) := by
  refine ⟨rfl, rfl, by simp [cleanup_expired_content], by simp [cleanup_expired_content],
    fun d => ⟨?_, ?_, ?_, ?_⟩, fun m => ⟨?_, ?_, ?_, ?_⟩⟩
  · intro h
    simp [sweepDream, h.1, h.2]
  · intro h
    rcases h with h | h
    · simp [sweepDream, h]
    · simp [sweepDream, Nat.not_le.mpr h]
  · intro h
    by_cases hc : d.expires_at ≤ now ∧ d.is_visible = true
    · simp [sweepDream, hc] at h
    · simp [sweepDream, hc] at h
      exact h
  · by_cases hc : d.expires_at ≤ now ∧ d.is_visible = true
    · simp [sweepDream, hc]
    · simp [sweepDream, hc]
  · intro h
    simp [sweepMoment, h.1, h.2]
  · intro h
    rcases h with h | h
    · simp [sweepMoment, h]
    · simp [sweepMoment, Nat.not_le.mpr h]
  · intro h
    by_cases hc : m.expires_at ≤ now ∧ m.is_visible = true
    · simp [sweepMoment, hc] at h
    · simp [sweepMoment, hc] at h
      exact h
  · by_cases hc : m.expires_at ≤ now ∧ m.is_visible = true
    · simp [sweepMoment, hc]
    · simp [sweepMoment, hc]

/-- C4 witness: a visible dream one second past expiry is hidden by the
sweep, and the table keeps its single row. -/
theorem cleanup_expired_content_monotone_witness :
    sweepDream 100 ⟨1, 7, none, "d", none, none, 10, 50, 1, true, true, 0⟩ =
      ⟨1, 7, none, "d", none, none, 10, 50, 1, true, false, 0⟩ ∧
    (cleanup_expired_content 100 []
        [⟨1, 7, none, "d", none, none, 10, 50, 1, true, true, 0⟩]).dreams.length = 1 :=
  ⟨((cleanup_expired_content_monotone 100 []
        [⟨1, 7, none, "d", none, none, 10, 50, 1, true, true, 0⟩]).2.2.2.2.1
      ⟨1, 7, none, "d", none, none, 10, 50, 1, true, true, 0⟩).1 ⟨rfl, by decide⟩,
   (cleanup_expired_content_monotone 100 []
        [⟨1, 7, none, "d", none, none, 10, 50, 1, true, true, 0⟩]).2.2.2.1⟩

/-! ## C5 — the daily dream quota -/

/-- C5: with moderation not flagging the text, an owner who already has at
least `MAX_DREAMS_PER_DAY` dreams created since the UTC day start is
rejected with HTTP 429 whose detail carries the configured limit and the
table is returned unchanged (nothing persisted); an owner below the limit is
admitted and exactly one row is appended. -/
theorem create_dream_rate_limited (s : Settings) (msg : String)
    (db : List Dream) (uid newId now : Nat) (req : DreamCreate) :
    (s.MAX_DREAMS_PER_DAY ≤ (db.filter (fun d =>
        d.user_id == uid && decide (todayStart now ≤ d.created_at))).length →
      create_dream s false msg db uid newId now req =
        (db, .error ⟨429, "Maximum " ++ toString s.MAX_DREAMS_PER_DAY ++
          " dreams per day"⟩)) ∧
    ((db.filter (fun d =>
        d.user_id == uid && decide (todayStart now ≤ d.created_at))).length <
        s.MAX_DREAMS_PER_DAY →
      ∃ d : Dream, create_dream s false msg db uid newId now req =
        (db ++ [d], .ok d)) := by
  constructor
  · intro hlim
    unfold create_dream
    simp [hlim]
  · intro hlim
    unfold create_dream
    simp [Nat.not_le.mpr hlim]

/-- C5 witness: ten dreams already created today under the default settings
(limit 10) reject the eleventh with the limit in the message; an empty table
admits. -/
theorem create_dream_rate_limited_witness :
    create_dream {} false ""
        (List.replicate 10 ⟨1, 7, none, "d", none, none, 86400, 172800, 1, true, true, 0⟩)
        7 99 86500 ⟨"a dream about proofs", none, none, true, 7⟩ =
      (List.replicate 10 ⟨1, 7, none, "d", none, none, 86400, 172800, 1, true, true, 0⟩,
        .error ⟨429, "Maximum 10 dreams per day"⟩) ∧
    ∃ d : Dream, create_dream {} false "" [] 7 99 86500
        ⟨"a dream about proofs", none, none, true, 7⟩ = ([] ++ [d], .ok d) :=
  ⟨(create_dream_rate_limited {} ""
      (List.replicate 10 ⟨1, 7, none, "d", none, none, 86400, 172800, 1, true, true, 0⟩)
      7 99 86500 ⟨"a dream about proofs", none, none, true, 7⟩).1 (by decide),
   (create_dream_rate_limited {} "" [] 7 99 86500
      ⟨"a dream about proofs", none, none, true, 7⟩).2 (by decide)⟩

/-! ## C6 — expiry equals creation plus the configured tier -/

/-- Inverting a successful `create_dream`: the stored row is exactly the one
built from the request at `now`. -/
theorem create_dream_ok_inv {s : Settings} {flag : Bool} {msg : String}
    {db db' : List Dream} {uid newId now : Nat} {req : DreamCreate} {d : Dream}
    (h : create_dream s flag msg db uid newId now req = (db', .ok d)) :
    d = ⟨newId, uid, req.title, req.description, req.audio_url, none, now,
          now + 86400 * (if req.ttl_days = 1 ∨ req.ttl_days = 7 ∨ req.ttl_days = 30
            then req.ttl_days.toNat else 1),
          (if req.ttl_days = 1 ∨ req.ttl_days = 7 ∨ req.ttl_days = 30
            then req.ttl_days.toNat else 1),
          req.is_public, true, 0⟩ := by
  unfold create_dream at h
  dsimp only at h
  cases flag with
  | true =>
    rw [if_pos rfl, Prod.mk.injEq] at h
    exact Except.noConfusion h.2
  | false =>
    rw [if_neg (by simp)] at h
    by_cases hlim : s.MAX_DREAMS_PER_DAY ≤ (db.filter (fun d =>
        d.user_id == uid && decide (todayStart now ≤ d.created_at))).length
    · rw [if_pos hlim, Prod.mk.injEq] at h
      exact Except.noConfusion h.2
    · rw [if_neg hlim, Prod.mk.injEq] at h
      have hd := h.2
      rw [Except.ok.injEq] at hd
      exact hd.symm

/-- Inverting a successful `create_moment`: the stored row is exactly the
one built from the request at `now`. -/
theorem create_moment_ok_inv {s : Settings} {flag : Bool} {msg : String}
    {db db' : List Moment} {uid newId now : Nat} {req : MomentCreate} {m : Moment}
    (h : create_moment s flag msg db uid newId now req = (db', .ok m)) :
    m = ⟨newId, uid, req.caption, req.media_type, req.media_url, none, now,
          now + s.MOMENT_TTL_SECONDS, true, 0⟩ := by
  unfold create_moment at h
  dsimp only at h
  by_cases hmod : (pyTruthy req.caption && flag) = true
  · rw [if_pos hmod, Prod.mk.injEq] at h
    exact Except.noConfusion h.2
  · rw [if_neg hmod] at h
    by_cases hlim : s.MAX_MOMENTS_PER_HOUR ≤ (db.filter (fun m =>
        m.user_id == uid && decide (now - 3600 ≤ m.created_at))).length
    · rw [if_pos hlim, Prod.mk.injEq] at h
      exact Except.noConfusion h.2
    · rw [if_neg hlim, Prod.mk.injEq] at h
      have hd := h.2
      rw [Except.ok.injEq] at hd
      exact hd.symm

/-- C6: every admitted dream has `expires_at = created_at + ttl_days` days
and every admitted moment has `expires_at = created_at + MOMENT_TTL_SECONDS`;
the admission decision never inspects the TTL, so with a zero moment TTL the
item is still created (same admission outcome as for any other TTL), its
expiry equals `now`, and the very next sweep hides it. -/
theorem expiry_equals_creation_plus_tier (s : Settings) (msgD msgM : String)
    (dreamsDb : List Dream) (momentsDb : List Moment) (uid newId now : Nat)
    (dreq : DreamCreate) (mreq : MomentCreate) :
    (∀ (db' : List Dream) (d : Dream),
      create_dream s false msgD dreamsDb uid newId now dreq = (db', .ok d) →
      d.expires_at = d.created_at + 86400 * d.ttl_days ∧ d.created_at = now) ∧
    (∀ (db' : List Moment) (m : Moment),
      create_moment s false msgM momentsDb uid newId now mreq = (db', .ok m) →
      m.expires_at = m.created_at + s.MOMENT_TTL_SECONDS ∧ m.created_at = now) ∧
    (∀ (db' : List Moment) (m : Moment),
      create_moment { s with MOMENT_TTL_SECONDS := 0 } false msgM momentsDb
          uid newId now mreq = (db', .ok m) →
      m.expires_at = now ∧ (sweepMoment now m).is_visible = false) ∧
    ((create_moment s false msgM momentsDb uid newId now mreq).2.isOk ↔
      (create_moment { s with MOMENT_TTL_SECONDS := 0 } false msgM momentsDb
          uid newId now mreq).2.isOk) := by
  refine ⟨?_, ?_, ?_, ?_⟩
  · intro db' d h
    have hd := create_dream_ok_inv h
    subst hd
    exact ⟨rfl, rfl⟩
  · intro db' m h
    have hm := create_moment_ok_inv h
    subst hm
    exact ⟨rfl, rfl⟩
  · intro db' m h
    have hm := create_moment_ok_inv h
    subst hm
    refine ⟨rfl, ?_⟩
    show (sweepMoment now ⟨newId, uid, mreq.caption, mreq.media_type,
      mreq.media_url, none, now, now + 0, true, 0⟩).is_visible = false
    simp [sweepMoment]
  · unfold create_moment
    dsimp only
    by_cases hlim : s.MAX_MOMENTS_PER_HOUR ≤ (momentsDb.filter (fun m =>
        m.user_id == uid && decide (now - 3600 ≤ m.created_at))).length
    · simp only [Bool.and_false, Bool.false_eq_true, if_false, if_pos hlim]
    · simp only [Bool.and_false, Bool.false_eq_true, if_false, if_neg hlim]
      rfl

/-- C6 witness: under default settings a dream created with tier 7 expires
7 days after creation; with a zero moment TTL the moment is created with
`expires_at = now` and the sweep at the same instant hides it. -/
theorem expiry_equals_creation_plus_tier_witness :
    (⟨99, 7, none, "a dream about proofs", none, none, 1000, 1000 + 86400 * 7, 7,
        true, true, 0⟩ : Dream).expires_at =
      (⟨99, 7, none, "a dream about proofs", none, none, 1000, 1000 + 86400 * 7, 7,
        true, true, 0⟩ : Dream).created_at + 86400 *
      (⟨99, 7, none, "a dream about proofs", none, none, 1000, 1000 + 86400 * 7, 7,
        true, true, 0⟩ : Dream).ttl_days ∧
    (⟨99, 7, some "hi", "photo", "u", none, 1000, 1000, true, 0⟩ : Moment).expires_at
        = 1000 ∧
    (sweepMoment 1000 ⟨99, 7, some "hi", "photo", "u", none, 1000, 1000, true, 0⟩).is_visible
        = false :=
  ⟨((expiry_equals_creation_plus_tier {} "" "" [] [] 7 99 1000
      ⟨"a dream about proofs", none, none, true, 7⟩ ⟨some "hi", "photo", "u"⟩).1
      [⟨99, 7, none, "a dream about proofs", none, none, 1000, 1000 + 86400 * 7, 7,
        true, true, 0⟩]
      ⟨99, 7, none, "a dream about proofs", none, none, 1000, 1000 + 86400 * 7, 7,
        true, true, 0⟩ rfl).1,
   ((expiry_equals_creation_plus_tier {} "" "" [] [] 7 99 1000
      ⟨"a dream about proofs", none, none, true, 7⟩ ⟨some "hi", "photo", "u"⟩).2.2.1
      [⟨99, 7, some "hi", "photo", "u", none, 1000, 1000, true, 0⟩]
      ⟨99, 7, some "hi", "photo", "u", none, 1000, 1000, true, 0⟩ rfl).1,
   ((expiry_equals_creation_plus_tier {} "" "" [] [] 7 99 1000
      ⟨"a dream about proofs", none, none, true, 7⟩ ⟨some "hi", "photo", "u"⟩).2.2.1
      [⟨99, 7, some "hi", "photo", "u", none, 1000, 1000, true, 0⟩]
      ⟨99, 7, some "hi", "photo", "u", none, 1000, 1000, true, 0⟩ rfl).2⟩

/-! ## C10 — silent TTL coercion -/

/-- C10: the schema accepts every integer `ttl_days` in `[1,30]` (given the
other fields pass validation), yet `create_dream` silently coerces any value
outside `{1, 7, 30}` to 1: the request succeeds and the stored dream has
`ttl_days = 1` and `expires_at = created_at + 1` day, with no error. -/
theorem create_dream_ttl_coerced (s : Settings) (msg : String)
    (db : List Dream) (uid newId now : Nat) (req : DreamCreate) :
    (10 ≤ req.description.length → req.description.length ≤ 5000 →
      (∀ t ∈ req.title, t.length ≤ 200) → 1 ≤ req.ttl_days → req.ttl_days ≤ 30 →
      DreamCreate.validate req = true) ∧
    (req.ttl_days ≠ 1 → req.ttl_days ≠ 7 → req.ttl_days ≠ 30 →
      (db.filter (fun d =>
          d.user_id == uid && decide (todayStart now ≤ d.created_at))).length <
        s.MAX_DREAMS_PER_DAY →
      ∃ d : Dream, create_dream s false msg db uid newId now req =
        (db ++ [d], .ok d) ∧ d.ttl_days = 1 ∧
        d.expires_at = d.created_at + 86400) := by
  constructor
  · intro h1 h2 h3 h4 h5
    unfold DreamCreate.validate
    cases ht : req.title with
    | none => simp [h1, h2, h4, h5]
    | some t =>
      have := h3 t (by rw [ht]; exact Option.mem_some_self t)
      simp [h1, h2, h4, h5, this]
  · intro hn1 hn7 hn30 hlim
    have hcoerce : ¬(req.ttl_days = 1 ∨ req.ttl_days = 7 ∨ req.ttl_days = 30) := by
      rintro (h | h | h) <;> [exact hn1 h; exact hn7 h; exact hn30 h]
    unfold create_dream
    simp [Nat.not_le.mpr hlim, hcoerce]

/-- C10 witness: `ttl_days = 5` passes validation, is coerced to 1, and the
dream expires one day after creation. -/
theorem create_dream_ttl_coerced_witness :
    DreamCreate.validate ⟨"a dream about proofs", none, none, true, 5⟩ = true ∧
    ∃ d : Dream, create_dream {} false "" [] 7 99 1000
        ⟨"a dream about proofs", none, none, true, 5⟩ = ([] ++ [d], .ok d) ∧
      d.ttl_days = 1 ∧ d.expires_at = d.created_at + 86400 :=
  ⟨(create_dream_ttl_coerced {} "" [] 7 99 1000
      ⟨"a dream about proofs", none, none, true, 5⟩).1 (by decide) (by decide)
      (by simp) (by decide) (by decide),
   (create_dream_ttl_coerced {} "" [] 7 99 1000
      ⟨"a dream about proofs", none, none, true, 5⟩).2 (by decide) (by decide)
      (by decide) (by decide)⟩

/-! ## C7 — Expired (410) is distinct from NotFound (404) -/

/-- C7: `get_dream` answers 404 exactly when no row has the id; an existing
row at-or-past expiry answers 410 "Dream expired", a distinct error; and the
public listing `get_dreams` only ever returns public, visible, unexpired
rows. -/
theorem get_dream_expired_vs_not_found (db : List Dream)
    (dream_id now skip limit : Nat) :
    ((get_dream db dream_id now).2 = .error ⟨404, "Dream not found"⟩ ↔
      db.find? (fun d => d.id == dream_id) = none) ∧
    (∀ d : Dream, db.find? (fun d => d.id == dream_id) = some d →
      d.expires_at ≤ now →
      (get_dream db dream_id now).2 = .error ⟨410, "Dream expired"⟩) ∧
    ((Except.error ⟨410, "Dream expired"⟩ : Except HTTPException Dream) ≠
      Except.error ⟨404, "Dream not found"⟩) ∧
    (∀ d ∈ get_dreams db now skip limit,
      d.is_public = true ∧ d.is_visible = true ∧ now < d.expires_at) := by
  refine ⟨?_, ?_, ?_, ?_⟩
  · cases hf : db.find? (fun d => d.id == dream_id) with
    | none =>
      unfold get_dream
      rw [hf]
      simp
    | some d =>
      unfold get_dream
      rw [hf]
      dsimp only
      refine iff_of_false ?_ (by simp)
      intro h
      by_cases hexp : d.expires_at ≤ now
      · rw [if_pos hexp] at h
        dsimp only at h
        rw [Except.error.injEq] at h
        exact absurd (congrArg HTTPException.status_code h) (by decide)
      · rw [if_neg hexp] at h
        by_cases hpub : (!d.is_public) = true
        · rw [if_pos hpub] at h
          dsimp only at h
          rw [Except.error.injEq] at h
          exact absurd (congrArg HTTPException.status_code h) (by decide)
        · rw [if_neg hpub] at h
          dsimp only at h
          exact Except.noConfusion h
  · intro d hf hexp
    unfold get_dream
    rw [hf]
    dsimp only
    rw [if_pos hexp]
  · intro h
    rw [Except.error.injEq] at h
    exact absurd (congrArg HTTPException.status_code h) (by decide)
  · intro d hd
    unfold get_dreams at hd
    have h1 : d ∈ (db.filter (fun d =>
        d.is_public && d.is_visible && decide (now < d.expires_at))).mergeSort
          (fun a b => b.created_at ≤ a.created_at) :=
      List.drop_subset _ _ (List.take_subset _ _ hd)
    rw [List.mem_mergeSort] at h1
    have h2 := List.of_mem_filter h1
    simp only [Bool.and_eq_true, decide_eq_true_eq] at h2
    exact ⟨h2.1.1, h2.1.2, h2.2⟩

/-- C7 witness: an existing, expired dream answers 410, and the listing at
that time is empty. -/
theorem get_dream_expired_vs_not_found_witness :
    (get_dream [⟨1, 7, none, "d", none, none, 10, 50, 1, true, true, 0⟩] 1 100).2 =
      .error ⟨410, "Dream expired"⟩ :=
  (get_dream_expired_vs_not_found
      [⟨1, 7, none, "d", none, none, 10, 50, 1, true, true, 0⟩] 1 100 0 20).2.1
    ⟨1, 7, none, "d", none, none, 10, 50, 1, true, true, 0⟩ rfl (by decide)

/-! ## C8 — the fan-out broadcaster -/

/-- Closed form of the broadcast loop: starting from state `st`, processing
`todo` erases exactly the failing connections from the live set, attempts
each connection once in order, and delivers to exactly the non-failing
ones. -/
theorem broadcast_foldl (sendFails : Conn → Bool) (todo : List Conn) :
    ∀ st : BroadcastResult,
      todo.foldl (broadcastStep sendFails) st =
        ⟨st.active.diff (todo.filter sendFails), st.attempts ++ todo,
          st.delivered ++ todo.filter (fun c => !sendFails c)⟩ := by
  induction todo with
  | nil =>
    intro st
    simp [List.diff_nil]
  | cons c todo ih =>
    intro st
    rw [List.foldl_cons, ih]
    by_cases h : sendFails c
    · simp [broadcastStep, h, List.filter_cons, List.diff_cons]
    · simp [broadcastStep, h, List.filter_cons]

/-- C8: broadcasting over the empty live set does nothing and raises
nothing; every connection's send is attempted exactly once (no retry); a
connection whose send fails is dropped from the live set while every other
connection is still delivered to. -/
theorem ConnectionManager_broadcast_policy (sendFails : Conn → Bool) :
    broadcast sendFails [] = ⟨[], [], []⟩ ∧
    (∀ active_connections : List Conn,
      (broadcast sendFails active_connections).attempts = active_connections ∧
      (broadcast sendFails active_connections).delivered =
        active_connections.filter (fun c => !sendFails c)) ∧
    (∀ active_connections : List Conn, active_connections.Nodup →
      (broadcast sendFails active_connections).active =
        active_connections.filter (fun c => !sendFails c) ∧
      (∀ c ∈ active_connections, sendFails c = true →
        c ∉ (broadcast sendFails active_connections).active ∧
        (broadcast sendFails active_connections).attempts.count c = 1) ∧
      (∀ c ∈ active_connections, sendFails c = false →
        c ∈ (broadcast sendFails active_connections).delivered)) := by
  have key : ∀ l : List Conn, broadcast sendFails l =
      ⟨l.diff (l.filter sendFails), l, l.filter (fun c => !sendFails c)⟩ := by
    intro l
    unfold broadcast
    rw [broadcast_foldl]
    simp
  refine ⟨by rw [key]; rfl, fun l => ⟨by rw [key], by rw [key]⟩, fun l hnd => ?_⟩
  have hdiff : l.diff (l.filter sendFails) = l.filter (fun c => !sendFails c) := by
    rw [List.Nodup.diff_eq_filter hnd]
    apply List.filter_congr
    intro x hx
    by_cases hfx : sendFails x
    · simp [List.mem_filter, hx, hfx]
    · simp [List.mem_filter, hfx]
  refine ⟨by rw [key, hdiff], fun c hc hfc => ⟨?_, ?_⟩, fun c hc hfc => ?_⟩
  · rw [key, hdiff]
    simp [List.mem_filter, hfc]
  · rw [key]
    exact List.count_eq_one_of_mem hnd hc
  · rw [key]
    simp only [List.mem_filter]
    exact ⟨hc, by simp [hfc]⟩

/-- C8 witness: two live subscribers, the first one's send fails — it is
dropped, attempted once, and the second still receives the event. -/
theorem ConnectionManager_broadcast_policy_witness :
    (broadcast (fun c => c == 1) [1, 2]).active = [2] ∧
    (1 : Conn) ∉ (broadcast (fun c => c == 1) [1, 2]).active ∧
    (2 : Conn) ∈ (broadcast (fun c => c == 1) [1, 2]).delivered :=
  ⟨(((ConnectionManager_broadcast_policy (fun c => c == 1)).2.2 [1, 2]
      (by decide)).1).trans (by decide),
   (((ConnectionManager_broadcast_policy (fun c => c == 1)).2.2 [1, 2]
      (by decide)).2.1 1 (by decide) (by decide)).1,
   ((ConnectionManager_broadcast_policy (fun c => c == 1)).2.2 [1, 2]
      (by decide)).2.2 2 (by decide) (by decide)⟩

end DreamCapture
